import Mathlib

/-!
Shallow embedding of `tabular_sampling/surrogate/xgb.py` (class `XGBSurrogate`):
its hyperparameter handling, dataset splitting, fitting/prediction state, and
persistence, together with theorems settling the frozen claims about them.

Conventions of the embedding:
* pandas `DataFrame`s become `DF V`: an ordered list of column names plus rows.
* pandas group `DataFrame`s (a single integer column) become `List Nat`.
* Python floats that the code only compares and branches on (`test_size`,
  hyperparameter values) become `ℚ`; all comparisons in the claims happen at
  exactly representable values, so the comparisons agree with float semantics.
* Exceptions become `Except PyError`.  Python's local-variable semantics are
  modelled faithfully: reading a local that no branch assigned raises
  `UnboundLocalError` (the `groups_train` variable in
  `prepare_dataset_for_training` is assigned only in the grouped
  `test_size > 0` branch, yet read by the shared `return` statement).
* The scikit-learn / numpy / joblib collaborators (splitters, estimator
  fitting, RNG draws, serialization) are out-of-scope externals per the spec;
  they are modelled as oracle records (`ExternalSplit`, `ExternalLib`,
  `RandomDraws`, `Store`) that the embedded code consumes exactly where the
  source calls them.
-/

namespace XGB

/-- Python exceptions that the embedded code can raise. -/
inductive PyError where
  /-- `ValueError`, raised by the explicit `test_size` validation. -/
  | valueError : PyError
  /-- `UnboundLocalError`: a local variable read before any assignment. -/
  | unboundLocal : PyError
  /-- `NameError`: a global name that is not defined (`loguniform`). -/
  | nameError : PyError
  /-- `FileNotFoundError` from `joblib.load` / `pd.read_pickle`. -/
  | fileNotFound : PyError
  /-- `AttributeError` (e.g. `None.to_series()`, `None.predict`). -/
  | attributeError : PyError
  /-- `TypeError` (e.g. indexing a DataFrame with `None` columns). -/
  | typeError : PyError
deriving DecidableEq, Repr

/-- A pandas `DataFrame`: ordered column names and rows of cells. -/
structure DF (V : Type) where
  cols : List String
  rows : List (List V)
deriving DecidableEq, Repr

/-- `df.loc[:, hdrs]`: reorder/filter the columns of `df` to the order
`hdrs`, keeping every row. -/
def selectCols {V : Type} (df : DF V) (hdrs : List String) : DF V :=
  ⟨hdrs, df.rows.map fun r =>
    hdrs.filterMap fun h => (df.cols.findIdx? (fun c => c = h)).bind (fun i => r[i]?)⟩

/-- `df.iloc[idx]`: select the rows of `df` at the given positions. -/
def selectRows {V : Type} (df : DF V) (idx : List Nat) : DF V :=
  ⟨df.cols, idx.filterMap fun i => df.rows[i]?⟩

/-- `groups.iloc[idx]` for the single-column group frame, as a list. -/
def selectIdx (g : List Nat) (idx : List Nat) : List Nat :=
  idx.filterMap fun i => g[i]?

/-- The XGBoost hyperparameter dictionary built by `default_hyperparams` and
`set_random_hyperparams` (keys in source order). -/
structure Hyperparams where
  objective : String
  booster : String
  max_depth : Int
  min_child_weight : Int
  colsample_bytree : ℚ
  learning_rate : ℚ
  colsample_bylevel : ℚ
deriving DecidableEq, Repr

/-- `XGBSurrogate.default_hyperparams` (xgb.py lines 59-71). -/
def default_hyperparams : Hyperparams :=
  { objective := "reg:squarederror"
    booster := "gbtree"
    max_depth := 6
    min_child_weight := 1
    colsample_bytree := 1
    learning_rate := 3 / 10
    colsample_bylevel := 1 }

/-- The numpy RNG draws consumed by the random branch of
`set_random_hyperparams`, in evaluation order.  `np.random.choice(range(1, 15))`
and `np.random.choice(range(1, 10))` yield the integer draws;
`np.random.uniform(0.0, 1.0)` yields the two uniform draws.  The learning-rate
draw never happens: the expression `loguniform(0.001, 0.5)` is evaluated
before the dict is complete and `loguniform` is not a defined name. -/
structure RandomDraws where
  max_depth_choice : Int
  min_child_weight_choice : Int
  colsample_bytree_uniform : ℚ
  colsample_bylevel_uniform : ℚ
deriving DecidableEq, Repr

/-- Placeholder for `ConfigSpace.ConfigurationSpace`: only its identity is
relevant to the claims (it is stored, persisted and restored, never
inspected by the code paths under study). -/
structure ConfigurationSpace where
  hyperparameterNames : List String
deriving DecidableEq, Repr

/-- Modelled from the spec: `joint_config_space` lives in
`tabular_sampling/search_space/configspace.py`, which is not part of the
excerpt; the spec only says it describes the schema of input configurations,
and no claim inspects it, so it is an unspecified fixed schema value. -/
def joint_config_space : ConfigurationSpace := ⟨[]⟩

/-- The mutable state of an `XGBSurrogate` instance (xgb.py lines 108-115),
with the fitted pipeline / search object abstracted to a type `M`. -/
structure XGBSurrogate (M : Type) where
  estimators_per_output : Nat
  hyperparams : Option Hyperparams
  config_space : ConfigurationSpace
  use_gpu : Option Bool
  model : Option M
  feature_headers : Option (List String)
  label_headers : Option (List String)
  trained_ : Bool
deriving DecidableEq, Repr

/-- `set_random_hyperparams` (xgb.py lines 73-92).  With no hyperparameters
set it installs the default configuration; otherwise it starts building the
random dictionary and crashes with `NameError` when evaluating
`loguniform(0.001, 0.5)` for `"learning_rate"`, because `loguniform` is not
imported (only `scipy.stats` is). -/
def set_random_hyperparams {M : Type} (s : XGBSurrogate M) (rng : RandomDraws) :
    Except PyError (Hyperparams × XGBSurrogate M) :=
  match s.hyperparams with
  | none =>
    let params := default_hyperparams
    .ok (params, { s with hyperparams := some params })
  | some _ =>
    -- dict construction evaluates values in order: after the three RNG draws
    -- below, `loguniform(0.001, 0.5)` raises NameError.
    let _max_depth := rng.max_depth_choice
    let _min_child_weight := rng.min_child_weight_choice
    let _colsample_bytree := rng.colsample_bytree_uniform
    .error .nameError

/-- The state built by `__init__` (xgb.py lines 94-118): attributes
initialized, then `set_random_hyperparams` installs the defaults (its
`hyperparams is None` branch, which consumes no RNG draws). -/
def XGBSurrogate.new (M : Type) : XGBSurrogate M :=
  { estimators_per_output := 500
    hyperparams := some default_hyperparams
    config_space := joint_config_space
    use_gpu := none
    model := none
    feature_headers := none
    label_headers := none
    trained_ := false }

/-- A returned cross-validation split generator (only its identity matters:
which scikit-learn class with which arguments was constructed). -/
inductive CVGen where
  /-- `sklearn.model_selection.KFold(n_splits=n, shuffle=shuffle)`. -/
  | kFold (n_splits : Nat) (shuffle : Bool)
  /-- `sklearn.model_selection.GroupKFold(n_splits=n)`. -/
  | groupKFold (n_splits : Nat)
deriving DecidableEq, Repr

/-- Modelled from the scikit-learn splitter contract, which the spec lists as
an out-of-scope external collaborator.  The RNG-dependent choices of
`next(test_splitter.split(...))` are abstracted into membership predicates:
the shuffle splitters (`ShuffleSplit` / `StratifiedShuffleSplit`) choose a set
of test rows, and the group-aware splitters (`GroupShuffleSplit` /
`StratifiedGroupKFold`) choose a set of test group ids, sending each whole
group to one side. -/
structure ExternalSplit where
  /-- Row `i` goes to the test side (`StratifiedShuffleSplit`). -/
  stratShuffleTestRow : Nat → Bool
  /-- Row `i` goes to the test side (`ShuffleSplit`). -/
  shuffleTestRow : Nat → Bool
  /-- Group `G` goes to the test side (`StratifiedGroupKFold`, first fold). -/
  stratGroupTestGroup : Nat → Bool
  /-- Group `G` goes to the test side (`GroupShuffleSplit`). -/
  groupShuffleTestGroup : Nat → Bool

/-- Train/test index pair from a row-membership predicate over `n` rows:
test rows are those satisfying `sel`, train rows the rest. -/
def rowSplitIndices (sel : Nat → Bool) (n : Nat) : List Nat × List Nat :=
  ((List.range n).filter (fun i => ! sel i), (List.range n).filter (fun i => sel i))

/-- Train/test index pair from a group-membership predicate: row `i` is a
test row exactly when its group id `g[i]` is a test group. -/
def groupSplitIndices (sel : Nat → Bool) (g : List Nat) : List Nat × List Nat :=
  rowSplitIndices (fun i => sel (g.getD i 0)) g.length

/-- Modelled from the scikit-learn `GroupKFold` contract: the generator
assigns every group id to exactly one fold; fold `k` has as validation rows
exactly the rows whose group is assigned to `k`, and as training rows all
others.  Returns `(train indices, validation indices)`. -/
def groupKFoldFoldIndices (foldOf : Nat → Nat) (g : List Nat) (k : Nat) :
    List Nat × List Nat :=
  ((List.range g.length).filter (fun i => foldOf (g.getD i 0) ≠ k),
   (List.range g.length).filter (fun i => foldOf (g.getD i 0) = k))

/-- The `strata` argument of the splitter: `None`, a label-column name, or an
explicit sequence. -/
inductive StrataArg (V : Type) where
  | none : StrataArg V
  | column (name : String) : StrataArg V
  | explicit (vals : List V) : StrataArg V

/-- xgb.py lines 251-252: default the strata to the first label column, or
resolve a column name against the labels. -/
def resolveStrata {V : Type} (labels : DF V) : StrataArg V → List V
  | .none => (selectCols labels (labels.cols.take 1)).rows.flatten
  | .column name => (selectCols labels [name]).rows.flatten
  | .explicit vals => vals

/-- The tuple returned by `prepare_dataset_for_training`. -/
structure PrepResult (V : Type) where
  xtrain : DF V
  xtest : Option (DF V)
  ytrain : DF V
  ytest : Option (DF V)
  groups_train : Option (List Nat)
  cv : CVGen
deriving DecidableEq, Repr

/-- `XGBSurrogate.prepare_dataset_for_training` (xgb.py lines 194-284).
Each branch mirrors the source; the shared `return` statement reads the local
variable `groups_train`, which only the grouped `test_size > 0` branch
assigns, so every other non-raising branch ends in `UnboundLocalError`. -/
def prepare_dataset_for_training {V : Type} (ext : ExternalSplit)
    (features labels : DF V) (groups : Option (List Nat)) (test_size : ℚ)
    (num_cv_splits : Nat) (stratify : Bool) (strata : StrataArg V) :
    Except PyError (PrepResult V) :=
  if test_size > 1 ∨ test_size < 0 then
    .error .valueError
  else if test_size = 0 then
    let _xtrain := features
    let _ytrain := labels
    let _xtest : Option (DF V) := none
    let _ytest : Option (DF V) := none
    let _cv : CVGen := match groups with
      | none => .kFold num_cv_splits false
      | some _ => .groupKFold num_cv_splits
    -- `return ... groups_train ...` with `groups_train` never assigned here
    .error .unboundLocal
  else
    let strataVals := resolveStrata labels strata
    match groups with
    | none =>
      let sel := if stratify then ext.stratShuffleTestRow else ext.shuffleTestRow
      let idx := rowSplitIndices sel features.rows.length
      let _xtrain := selectRows features idx.1
      let _xtest := selectRows features idx.2
      let _ytrain := selectRows labels idx.1
      let _ytest := selectRows labels idx.2
      let _strataVals := strataVals
      let _cv : CVGen := .kFold num_cv_splits false
      -- `return ... groups_train ...` with `groups_train` never assigned here
      .error .unboundLocal
    | some g =>
      let _n_splits : Int := (1 / test_size).floor
      let sel := if stratify then ext.stratGroupTestGroup else ext.groupShuffleTestGroup
      let idx := groupSplitIndices sel g
      let xtrain := selectRows features idx.1
      let xtest := selectRows features idx.2
      let ytrain := selectRows labels idx.1
      let ytest := selectRows labels idx.2
      let groups_train := selectIdx g idx.1
      let _strataVals := strataVals
      let cv : CVGen := .groupKFold num_cv_splits
      .ok ⟨xtrain, some xtest, ytrain, some ytest, some groups_train, cv⟩

/-- The composed (unfit) pipeline built by `_get_simple_pipeline`
(xgb.py lines 166-192): a preprocessing stage derived from the config space
and an XGBoost stage configured by the stored hyperparameters, wrapped in a
multi-output regressor when `multiout` is set. -/
structure PipelineSpec where
  config_space : ConfigurationSpace
  hyperparams : Option Hyperparams
  use_gpu : Option Bool
  n_estimators : Nat
  multiout : Bool
deriving DecidableEq, Repr

/-- `self._get_simple_pipeline(multiout=...)`. -/
def _get_simple_pipeline {M : Type} (s : XGBSurrogate M) (multiout : Bool) :
    PipelineSpec :=
  ⟨s.config_space, s.hyperparams, s.use_gpu, 500, multiout⟩

/-- The score dictionary returned by `fit` (xgb.py lines 347-358). -/
structure Scores where
  train_r2 : ℚ
  train_mse : ℚ
  test_r2 : Option ℚ
  test_mse : Option ℚ
deriving DecidableEq, Repr

/-- Modelled from the scikit-learn / xgboost contract (out-of-scope externals
per the spec): the effect of fitting a pipeline or a randomized search on
given data, of a fitted model's `predict`, and of the two metric functions.
The embedded `fit` and `predict` call these exactly where the source calls
`trainer.fit`, `pipeline.fit`, `self.model.predict`, `r2_score` and
`mean_squared_error`. -/
structure ExternalLib (V M : Type) where
  split : ExternalSplit
  /-- `RandomizedSearchCV(pipeline, space, n_iter, cv, ...).fit(x, y, groups)`. -/
  fitHPO : PipelineSpec → Nat → CVGen → DF V → DF V → Option (List Nat) → M
  /-- `pipeline.fit(x, y)`. -/
  fitPlain : PipelineSpec → DF V → DF V → M
  /-- `model.predict(features)`: the raw prediction array. -/
  predictModel : M → DF V → List (List V)
  /-- `sklearn.metrics.r2_score(ytrue, ypred)`. -/
  r2_score : DF V → DF V → ℚ
  /-- `sklearn.metrics.mean_squared_error(ytrue, ypred)`. -/
  mean_squared_error : DF V → DF V → ℚ

/-- `XGBSurrogate.predict` (xgb.py lines 362-369): reorder/filter the input
columns to the stored feature order, run the stored model, and wrap the
result with the stored label columns.  An unset feature order or model makes
the corresponding Python expression raise. -/
def predict {V M : Type} (ext : ExternalLib V M) (s : XGBSurrogate M)
    (features : DF V) : Except PyError (DF V) :=
  match s.feature_headers with
  | none => .error .typeError
  | some fh =>
    let features := selectCols features fh
    match s.model with
    | none => .error .attributeError
    | some m =>
      let ypredict := ext.predictModel m features
      .ok ⟨s.label_headers.getD [], ypredict⟩

/-- The body of `fit` from line 312 on, after the header fixing/reordering of
lines 294-304 has been applied: split the dataset, build the pipeline, train
(with or without HPO), set the trained flag and compute the scores.
Returns the post-call instance state together with the normal or exceptional
outcome, since Python keeps attribute mutations made before an exception. -/
def fit_after_headers {V M : Type} (ext : ExternalLib V M) (s : XGBSurrogate M)
    (features labels : DF V) (groups : Option (List Nat)) (perform_hpo : Bool)
    (test_size : ℚ) (hpo_iters num_cv_splits : Nat) (stratify : Bool)
    (strata : StrataArg V) : XGBSurrogate M × Except PyError Scores :=
  match prepare_dataset_for_training ext.split features labels groups test_size
      num_cv_splits stratify strata with
  | .error e => (s, .error e)
  | .ok r =>
    let num_regressands := labels.cols.length
    let pipeline := _get_simple_pipeline s (decide (num_regressands > 1))
    let model := if perform_hpo then
        ext.fitHPO pipeline hpo_iters r.cv r.xtrain r.ytrain r.groups_train
      else
        ext.fitPlain pipeline r.xtrain r.ytrain
    let s := { s with model := some model, trained_ := true }
    match predict ext s r.xtrain with
    | .error e => (s, .error e)
    | .ok ypred_train =>
      let scores : Scores :=
        ⟨ext.r2_score r.ytrain ypred_train,
         ext.mean_squared_error r.ytrain ypred_train, none, none⟩
      if test_size > 0 then
        match r.xtest, r.ytest with
        | some xtest, some ytest =>
          match predict ext s xtest with
          | .error e => (s, .error e)
          | .ok ypred_test =>
            (s, .ok { scores with
                        test_r2 := some (ext.r2_score ytest ypred_test),
                        test_mse := some (ext.mean_squared_error ytest ypred_test) })
        | _, _ => (s, .error .typeError)
      else
        (s, .ok scores)

/-- `XGBSurrogate.fit` (xgb.py lines 289-360): fix or enforce the stored
feature and label column orders (lines 294-304), then run the rest of the
body on the reordered data. -/
def fit {V M : Type} (ext : ExternalLib V M) (s : XGBSurrogate M)
    (features labels : DF V) (groups : Option (List Nat)) (perform_hpo : Bool)
    (test_size : ℚ) (hpo_iters num_cv_splits : Nat) (stratify : Bool)
    (strata : StrataArg V) : XGBSurrogate M × Except PyError Scores :=
  let (fh, features) := match s.feature_headers with
    | none => (features.cols, features)
    | some h => (h, selectCols features h)
  let (lh, labels) := match s.label_headers with
    | none => (labels.cols, labels)
    | some h => (h, selectCols labels h)
  let s := { s with feature_headers := some fh, label_headers := some lh }
  fit_after_headers ext s features labels groups perform_hpo test_size
    hpo_iters num_cv_splits stratify strata

/-- The parameter payload written to `params.pkl.gz`: the values of the
attributes named by `__param_keys` (xgb.py lines 42-43), in order. -/
structure ParamsPayload where
  estimators_per_output : Nat
  hyperparams : Option Hyperparams
  config_space : ConfigurationSpace
  label_headers : Option (List String)
  feature_headers : Option (List String)
  trained_ : Bool
deriving DecidableEq, Repr

/-- `{k: self.__getattribute__(k) for k in self.__param_keys}`. -/
def paramsOf {M : Type} (s : XGBSurrogate M) : ParamsPayload :=
  ⟨s.estimators_per_output, s.hyperparams, s.config_space, s.label_headers,
   s.feature_headers, s.trained_⟩

/-- `for k, v in params.items(): surrogate.__setattr__(k, v)`. -/
def applyParams {M : Type} (s : XGBSurrogate M) (p : ParamsPayload) :
    XGBSurrogate M :=
  { s with
      estimators_per_output := p.estimators_per_output
      hyperparams := p.hyperparams
      config_space := p.config_space
      label_headers := p.label_headers
      feature_headers := p.feature_headers
      trained_ := p.trained_ }

/-- The output directory after a `dump`: the contents of the three fixed
files (`params.pkl.gz`, `label_headers.pkl.gz`, `model.pkl.gz`), each `none`
when the file was not written.  The model file stores `self.model`, which is
itself optional in the instance state. -/
structure Store (M : Type) where
  params_file : Option ParamsPayload
  headers_file : Option (List String)
  model_file : Option (Option M)
deriving DecidableEq, Repr

/-- `XGBSurrogate.dump` (xgb.py lines 371-378): always write the parameter
payload; when the instance is trained, additionally write the label-header
series and the fitted model.  A trained instance with `label_headers = None`
would crash on `None.to_series()`. -/
def dump {M : Type} (s : XGBSurrogate M) : Except PyError (Store M) :=
  let params := paramsOf s
  if s.trained_ then
    match s.label_headers with
    | none => .error .attributeError
    | some lh => .ok ⟨some params, some lh, some s.model⟩
  else
    .ok ⟨some params, none, none⟩

/-- `XGBSurrogate.load` (xgb.py lines 380-396): read the parameter payload,
construct a default instance, overwrite its attributes from the payload, and
when the restored trained flag is set, additionally read the label headers
and the model from their files.  A missing file raises. -/
def load (M : Type) (store : Store M) : Except PyError (XGBSurrogate M) :=
  match store.params_file with
  | none => .error .fileNotFound
  | some p =>
    let surrogate := applyParams (XGBSurrogate.new M) p
    if surrogate.trained_ then
      match store.headers_file, store.model_file with
      | some label_headers, some model =>
        .ok { surrogate with label_headers := some label_headers, model := model }
      | _, _ => .error .fileNotFound
    else
      .ok surrogate

/-! Concrete fixtures used to evaluate the embedding on small inputs. -/

/-- A concrete external-splitter oracle: odd rows train, even rows test;
group `2` is the test group. -/
def extSplit0 : ExternalSplit :=
  { stratShuffleTestRow := fun i => decide (i % 2 = 0)
    shuffleTestRow := fun i => decide (i % 2 = 0)
    stratGroupTestGroup := fun G => decide (G = 2)
    groupShuffleTestGroup := fun G => decide (G = 2) }

/-- A small concrete feature table. -/
def features0 : DF ℚ := ⟨["a", "epoch"], [[1, 1], [2, 1], [3, 1], [4, 1]]⟩

/-- A small concrete label table. -/
def labels0 : DF ℚ := ⟨["L0"], [[10], [20], [30], [40]]⟩

/-- Concrete group ids for the four rows of `features0`. -/
def groups0 : List Nat := [1, 1, 2, 2]

/-- A concrete external-library oracle over `Unit` models: `predict` echoes
the feature rows. -/
def extLib0 : ExternalLib ℚ Unit :=
  { split := extSplit0
    fitHPO := fun _ _ _ _ _ _ => ()
    fitPlain := fun _ _ _ => ()
    predictModel := fun _ df => df.rows
    r2_score := fun _ _ => 0
    mean_squared_error := fun _ _ => 0 }

/-- A freshly initialized instance whose hyperparameters were cleared, i.e.
the state just before `__init__`'s call to `set_random_hyperparams`. -/
def noHyperparams0 : XGBSurrogate Unit :=
  { (XGBSurrogate.new Unit) with hyperparams := none }

/-- A concrete trained instance with fixed column orders. -/
def trained0 : XGBSurrogate Unit :=
  { (XGBSurrogate.new Unit) with
      trained_ := true
      feature_headers := some ["a", "epoch"]
      label_headers := some ["L0"]
      model := some () }

/-- The directory contents produced by `dump trained0`. -/
def store0 : Store Unit := ⟨some (paramsOf trained0), some ["L0"], some (some ())⟩

/-- The instance produced by `load` from `store0`. -/
def loaded0 : XGBSurrogate Unit :=
  { (applyParams (XGBSurrogate.new Unit) (paramsOf trained0)) with
      label_headers := some ["L0"], model := some () }

/-- Concrete RNG draws for `set_random_hyperparams`. -/
def rng0 : RandomDraws := ⟨7, 3, 1 / 2, 1 / 3⟩

/-- The prediction table `predict extLib0 trained0 features0` evaluates to:
`extLib0`'s model echoes the reordered feature rows under the stored label
column order. -/
def predr0 : DF ℚ := ⟨["L0"], [[1, 1], [2, 1], [3, 1], [4, 1]]⟩

/-! Theorems settling the claims. -/

/-- C1: the claim says a `test_size` of 0 returns
`(features, None, labels, None, ..., KFold/GroupKFold)`.  The code instead
raises `UnboundLocalError`: the shared `return` statement reads the local
`groups_train`, which the `test_size == 0` branch never assigns.  Evaluated
here at a concrete dataset, both without and with groups. -/
theorem prepare_test_size_zero_raises :
    prepare_dataset_for_training extSplit0 features0 labels0 none 0 5 true .none
      = .error .unboundLocal
    ∧ prepare_dataset_for_training extSplit0 features0 labels0 (some groups0) 0 5 true .none
      = .error .unboundLocal :=
  ⟨rfl, rfl⟩

/-- C2: the claim says every `test_size ≥ 1` (such as `1.0`) raises the
validation error.  The guard is `test_size > 1 or test_size < 0`, so
`test_size = 1.0` passes validation and the call proceeds to produce a
split; only values strictly above 1 (such as `1.5`) raise. -/
theorem prepare_test_size_one_not_rejected :
    (∃ r, prepare_dataset_for_training extSplit0 features0 labels0 (some groups0) 1 5 false .none
      = .ok r)
    ∧ prepare_dataset_for_training extSplit0 features0 labels0 (some groups0) (3 / 2) 5 false .none
      = .error .valueError := by
  refine ⟨⟨_, rfl⟩, ?_⟩
  unfold prepare_dataset_for_training
  rw [if_pos (by norm_num)]

/-- C3: the claim says a call on an instance with hyperparameters already set
draws a fresh random configuration.  After `__init__` the hyperparameters are
always set, and the random branch evaluates `loguniform(0.001, 0.5)` for
`"learning_rate"`, but `loguniform` is not a defined name (only
`scipy.stats` is imported), so every such call raises `NameError` instead of
returning a sample, whatever the RNG draws are. -/
theorem set_random_hyperparams_again_name_error :
    ∀ rng : RandomDraws,
      set_random_hyperparams (XGBSurrogate.new Unit) rng = .error .nameError :=
  fun _ => rfl

/-- C4: on an instance whose hyperparameters are unset, `set_random_hyperparams`
returns and stores the fixed default configuration: objective
`reg:squarederror`, booster `gbtree`, `max_depth` 6, `min_child_weight` 1,
`colsample_bytree` 1, `learning_rate` 0.3, `colsample_bylevel` 1. -/
theorem set_random_hyperparams_default {M : Type} (s : XGBSurrogate M)
    (rng : RandomDraws) (h : s.hyperparams = none) :
    set_random_hyperparams s rng
      = .ok (default_hyperparams, { s with hyperparams := some default_hyperparams })
    ∧ default_hyperparams
      = ⟨"reg:squarederror", "gbtree", 6, 1, 1, 3 / 10, 1⟩ := by
  refine ⟨?_, rfl⟩
  unfold set_random_hyperparams
  rw [h]

/-- Witness for C4 at the concrete pre-`__init__` state. -/
theorem set_random_hyperparams_default_witness :
    set_random_hyperparams noHyperparams0 rng0
      = .ok (default_hyperparams, { noHyperparams0 with hyperparams := some default_hyperparams })
    ∧ default_hyperparams
      = ⟨"reg:squarederror", "gbtree", 6, 1, 1, 3 / 10, 1⟩ :=
  set_random_hyperparams_default noHyperparams0 rng0 rfl

/-- Membership in the group-selected train side forces the group selector to
reject the group id. -/
lemma groupSplit_left_not_sel {sel : Nat → Bool} {g : List Nat} {G : Nat}
    (h : G ∈ selectIdx g (groupSplitIndices sel g).1) : sel G = false := by
  simp only [selectIdx, groupSplitIndices, rowSplitIndices, List.mem_filterMap,
    List.mem_filter, List.mem_range] at h
  obtain ⟨i, ⟨hi, hq⟩, hget⟩ := h
  have hG : g.getD i 0 = G := by
    rw [List.getD_eq_getElem?_getD, hget]; rfl
  rw [hG] at hq
  simpa using hq

/-- Membership in the group-selected test side forces the group selector to
accept the group id. -/
lemma groupSplit_right_sel {sel : Nat → Bool} {g : List Nat} {G : Nat}
    (h : G ∈ selectIdx g (groupSplitIndices sel g).2) : sel G = true := by
  simp only [selectIdx, groupSplitIndices, rowSplitIndices, List.mem_filterMap,
    List.mem_filter, List.mem_range] at h
  obtain ⟨i, ⟨hi, hq⟩, hget⟩ := h
  have hG : g.getD i 0 = G := by
    rw [List.getD_eq_getElem?_getD, hget]; rfl
  rwa [hG] at hq

/-- Membership in the training side of a `GroupKFold` fold forces the group's
assigned fold to differ from the fold index. -/
lemma groupKFold_left_ne {foldOf : Nat → Nat} {g : List Nat} {k G : Nat}
    (h : G ∈ selectIdx g (groupKFoldFoldIndices foldOf g k).1) : foldOf G ≠ k := by
  simp only [selectIdx, groupKFoldFoldIndices, List.mem_filterMap,
    List.mem_filter, List.mem_range] at h
  obtain ⟨i, ⟨hi, hq⟩, hget⟩ := h
  have hG : g.getD i 0 = G := by
    rw [List.getD_eq_getElem?_getD, hget]; rfl
  rw [hG] at hq
  simpa using hq

/-- Membership in the validation side of a `GroupKFold` fold forces the
group's assigned fold to equal the fold index. -/
lemma groupKFold_right_eq {foldOf : Nat → Nat} {g : List Nat} {k G : Nat}
    (h : G ∈ selectIdx g (groupKFoldFoldIndices foldOf g k).2) : foldOf G = k := by
  simp only [selectIdx, groupKFoldFoldIndices, List.mem_filterMap,
    List.mem_filter, List.mem_range] at h
  obtain ⟨i, ⟨hi, hq⟩, hget⟩ := h
  have hG : g.getD i 0 = G := by
    rw [List.getD_eq_getElem?_getD, hget]; rfl
  rw [hG] at hq
  simpa using hq

/-- C8: the claim says every test fraction in (0,1) yields train/test
partitions of the input rows.  When no groups are given the call never
returns: the shared `return` statement reads the local `groups_train`, which
the ungrouped branch does not assign, so the call raises `UnboundLocalError`
after computing the split.  Evaluated at a concrete dataset with
`test_size = 1/2`, both stratified and not. -/
theorem prepare_fractional_ungrouped_raises :
    prepare_dataset_for_training extSplit0 features0 labels0 none (1 / 2) 5 true .none
      = .error .unboundLocal
    ∧ prepare_dataset_for_training extSplit0 features0 labels0 none (1 / 2) 5 false .none
      = .error .unboundLocal := by
  constructor <;>
  · unfold prepare_dataset_for_training
    rw [if_neg (by norm_num), if_neg (by norm_num)]

/-- C10: `fit` is not atomic on error.  On a fresh instance with an
out-of-range test fraction, the feature and label column orders are stored
from the inputs first (xgb.py lines 294-304), and only then does
`prepare_dataset_for_training` raise the validation error, so the failed call
leaves the instance with the authoritative column orders set. -/
theorem fit_sets_headers_before_validation {V M : Type} (ext : ExternalLib V M)
    (s : XGBSurrogate M) (features labels : DF V) (groups : Option (List Nat))
    (perform_hpo : Bool) (test_size : ℚ) (hpo_iters num_cv_splits : Nat)
    (stratify : Bool) (strata : StrataArg V)
    (hf : s.feature_headers = none) (hl : s.label_headers = none)
    (hts : test_size > 1 ∨ test_size < 0) :
    fit ext s features labels groups perform_hpo test_size hpo_iters
      num_cv_splits stratify strata
      = ({ s with
            feature_headers := some features.cols
            label_headers := some labels.cols },
         .error .valueError) := by
  unfold fit fit_after_headers prepare_dataset_for_training
  simp only [hf, hl]
  rw [if_pos hts]

/-- Witness for C10 at a fresh instance and `test_size = 1.5`. -/
theorem fit_sets_headers_before_validation_witness :
    fit extLib0 (XGBSurrogate.new Unit) features0 labels0 none true (3 / 2) 10 5 true .none
      = ({ (XGBSurrogate.new Unit) with
            feature_headers := some features0.cols
            label_headers := some labels0.cols },
         .error .valueError) :=
  fit_sets_headers_before_validation extLib0 (XGBSurrogate.new Unit) features0
    labels0 none true (3 / 2) 10 5 true .none rfl rfl (by norm_num)

/-- Updating the header fields with their current values is the identity. -/
lemma withHeaders_eq {M : Type} (s : XGBSurrogate M) (fh lh : List String)
    (hf : s.feature_headers = some fh) (hl : s.label_headers = some lh) :
    ({ s with feature_headers := some fh, label_headers := some lh } : XGBSurrogate M)
      = s := by
  cases s
  simp_all

/-- The body of `fit` after the header block never touches the stored
header fields, on any path (validation error, HPO or plain fit, scoring). -/
lemma fit_after_headers_preserves_headers {V M : Type} (ext : ExternalLib V M)
    (s : XGBSurrogate M) (features labels : DF V) (groups : Option (List Nat))
    (perform_hpo : Bool) (test_size : ℚ) (hpo_iters num_cv_splits : Nat)
    (stratify : Bool) (strata : StrataArg V) :
    (fit_after_headers ext s features labels groups perform_hpo test_size
        hpo_iters num_cv_splits stratify strata).1.feature_headers
      = s.feature_headers
    ∧ (fit_after_headers ext s features labels groups perform_hpo test_size
        hpo_iters num_cv_splits stratify strata).1.label_headers
      = s.label_headers := by
  unfold fit_after_headers
  constructor <;>
  · repeat' split
    all_goals try simp only []
    all_goals repeat' split
    all_goals rfl

/-- `predict` on an instance with stored headers, written with the column
reordering and label wrapping explicit. -/
lemma predict_eq {V M : Type} (ext : ExternalLib V M) (s : XGBSurrogate M)
    (fh lh : List String) (features : DF V)
    (hf : s.feature_headers = some fh) (hl : s.label_headers = some lh) :
    predict ext s features
      = match s.model with
        | none => .error .attributeError
        | some m => .ok ⟨lh, ext.predictModel m (selectCols features fh)⟩ := by
  unfold predict
  rw [hf, hl]
  cases s.model <;> rfl

/-- C5: once the stored feature/label column orders are set, `fit` reorders
its inputs to them and hands the reordered tables to the rest of its body,
the post-`fit` state keeps the stored orders unchanged on every path, and
`predict` depends on its input only through the reordering to the stored
feature order and returns its table with the stored label column order. -/
theorem headers_fixed_once_set {V M : Type} (ext : ExternalLib V M)
    (s : XGBSurrogate M) (fh lh : List String) (features f2 labels : DF V)
    (r : DF V) (groups : Option (List Nat)) (perform_hpo : Bool)
    (test_size : ℚ) (hpo_iters num_cv_splits : Nat) (stratify : Bool)
    (strata : StrataArg V)
    (hf : s.feature_headers = some fh) (hl : s.label_headers = some lh)
    (hsel : selectCols features fh = selectCols f2 fh)
    (hr : predict ext s features = .ok r) :
    fit ext s features labels groups perform_hpo test_size hpo_iters
        num_cv_splits stratify strata
      = fit_after_headers ext s (selectCols features fh) (selectCols labels lh)
          groups perform_hpo test_size hpo_iters num_cv_splits stratify strata
    ∧ (fit ext s features labels groups perform_hpo test_size hpo_iters
        num_cv_splits stratify strata).1.feature_headers = some fh
    ∧ (fit ext s features labels groups perform_hpo test_size hpo_iters
        num_cv_splits stratify strata).1.label_headers = some lh
    ∧ predict ext s features = predict ext s f2
    ∧ r.cols = lh := by
  have hfit : fit ext s features labels groups perform_hpo test_size hpo_iters
      num_cv_splits stratify strata
      = fit_after_headers ext s (selectCols features fh) (selectCols labels lh)
          groups perform_hpo test_size hpo_iters num_cv_splits stratify strata := by
    unfold fit
    rw [hf, hl]
    simp only []
    rw [withHeaders_eq s fh lh hf hl]
  refine ⟨hfit, ?_, ?_, ?_, ?_⟩
  · rw [hfit]
    exact (fit_after_headers_preserves_headers ext s (selectCols features fh)
      (selectCols labels lh) groups perform_hpo test_size hpo_iters
      num_cv_splits stratify strata).1.trans hf
  · rw [hfit]
    exact (fit_after_headers_preserves_headers ext s (selectCols features fh)
      (selectCols labels lh) groups perform_hpo test_size hpo_iters
      num_cv_splits stratify strata).2.trans hl
  · rw [predict_eq ext s fh lh features hf hl, predict_eq ext s fh lh f2 hf hl, hsel]
  · rw [predict_eq ext s fh lh features hf hl] at hr
    revert hr
    cases s.model with
    | none => intro hr; exact absurd hr (by simp)
    | some m =>
      intro hr
      injection hr with h
      rw [← h]

/-- Witness for C5 at a concrete trained instance and dataset. -/
theorem headers_fixed_once_set_witness :
    fit extLib0 trained0 features0 labels0 none true 0 10 5 true .none
      = fit_after_headers extLib0 trained0 (selectCols features0 ["a", "epoch"])
          (selectCols labels0 ["L0"]) none true 0 10 5 true .none
    ∧ (fit extLib0 trained0 features0 labels0 none true 0 10 5
        true .none).1.feature_headers = some ["a", "epoch"]
    ∧ (fit extLib0 trained0 features0 labels0 none true 0 10 5
        true .none).1.label_headers = some ["L0"]
    ∧ predict extLib0 trained0 features0 = predict extLib0 trained0 features0
    ∧ predr0.cols = ["L0"] :=
  headers_fixed_once_set extLib0 trained0 ["a", "epoch"] ["L0"] features0
    features0 labels0 predr0 none true 0 10 5 true .none rfl rfl rfl rfl

/-- C9: whenever group labels are supplied and the call returns, the test
split was produced by a group-aware splitter, so no group id occurs on both
sides of the train/test partition, the returned generator is a grouped
K-fold, and on the returned training groups no group id occurs on both sides
of any of its train/validation folds. -/
theorem prepare_with_groups_atomic {V : Type} (ext : ExternalSplit)
    (features labels : DF V) (g : List Nat) (test_size : ℚ)
    (num_cv_splits : Nat) (stratify : Bool) (strata : StrataArg V)
    (G G2 : Nat) (foldOf : Nat → Nat) (k : Nat)
    (h1 : ¬(test_size > 1 ∨ test_size < 0)) (h2 : test_size ≠ 0)
    (hG : G ∈ selectIdx g (groupSplitIndices
      (if stratify then ext.stratGroupTestGroup else ext.groupShuffleTestGroup) g).1)
    (hF : G2 ∈ selectIdx
      (selectIdx g (groupSplitIndices
        (if stratify then ext.stratGroupTestGroup else ext.groupShuffleTestGroup) g).1)
      (groupKFoldFoldIndices foldOf
        (selectIdx g (groupSplitIndices
          (if stratify then ext.stratGroupTestGroup else ext.groupShuffleTestGroup) g).1)
        k).1) :
    prepare_dataset_for_training ext features labels (some g) test_size
        num_cv_splits stratify strata
      = .ok ⟨selectRows features (groupSplitIndices
               (if stratify then ext.stratGroupTestGroup else ext.groupShuffleTestGroup) g).1,
             some (selectRows features (groupSplitIndices
               (if stratify then ext.stratGroupTestGroup else ext.groupShuffleTestGroup) g).2),
             selectRows labels (groupSplitIndices
               (if stratify then ext.stratGroupTestGroup else ext.groupShuffleTestGroup) g).1,
             some (selectRows labels (groupSplitIndices
               (if stratify then ext.stratGroupTestGroup else ext.groupShuffleTestGroup) g).2),
             some (selectIdx g (groupSplitIndices
               (if stratify then ext.stratGroupTestGroup else ext.groupShuffleTestGroup) g).1),
             .groupKFold num_cv_splits⟩
    ∧ G ∉ selectIdx g (groupSplitIndices
        (if stratify then ext.stratGroupTestGroup else ext.groupShuffleTestGroup) g).2
    ∧ G2 ∉ selectIdx
        (selectIdx g (groupSplitIndices
          (if stratify then ext.stratGroupTestGroup else ext.groupShuffleTestGroup) g).1)
        (groupKFoldFoldIndices foldOf
          (selectIdx g (groupSplitIndices
            (if stratify then ext.stratGroupTestGroup else ext.groupShuffleTestGroup) g).1)
          k).2 := by
  refine ⟨?_, ?_, ?_⟩
  · unfold prepare_dataset_for_training
    rw [if_neg h1, if_neg h2]
  · intro hc
    have ht := groupSplit_left_not_sel hG
    have hc' := groupSplit_right_sel hc
    rw [ht] at hc'
    exact Bool.false_ne_true hc'
  · intro hc
    exact groupKFold_left_ne hF (groupKFold_right_eq hc)

/-- Witness for C9 at a concrete grouped dataset with `test_size = 1/2`:
group 2 is held out, groups of train and test are disjoint, and fold 0 of
the grouped K-fold on the training groups is group-disjoint. -/
theorem prepare_with_groups_atomic_witness :
    prepare_dataset_for_training extSplit0 features0 labels0 (some groups0)
        (1 / 2) 5 false .none
      = .ok ⟨⟨["a", "epoch"], [[1, 1], [2, 1]]⟩,
             some ⟨["a", "epoch"], [[3, 1], [4, 1]]⟩,
             ⟨["L0"], [[10], [20]]⟩,
             some ⟨["L0"], [[30], [40]]⟩,
             some [1, 1],
             .groupKFold 5⟩
    ∧ (1 : Nat) ∉ selectIdx groups0
        (groupSplitIndices extSplit0.groupShuffleTestGroup groups0).2
    ∧ (1 : Nat) ∉ selectIdx [1, 1]
        (groupKFoldFoldIndices (fun x => x) [1, 1] 0).2 :=
  prepare_with_groups_atomic extSplit0 features0 labels0 groups0 (1 / 2) 5
    false .none 1 1 (fun x => x) 0 (by norm_num) (by norm_num)
    (by decide) (by decide)

/-- C6: for a trained instance, `dump` followed by `load` restores the
feature order, label order and fitted model, so `predict` on any fixed input
table gives identical output before and after the round trip. -/
theorem dump_load_roundtrip_predict {V M : Type} (ext : ExternalLib V M)
    (s : XGBSurrogate M) (lh : List String) (st : Store M)
    (s2 : XGBSurrogate M) (features : DF V)
    (htr : s.trained_ = true) (hlh : s.label_headers = some lh)
    (hd : dump s = .ok st) (hload : load M st = .ok s2) :
    predict ext s2 features = predict ext s features := by
  obtain ⟨epo, hyp, cs, gpu, mdl, fhs, lhs, tr⟩ := s
  simp only at htr hlh
  subst htr
  subst hlh
  simp only [dump, Except.ok.injEq, reduceIte] at hd
  subst hd
  simp only [load, applyParams, paramsOf, XGBSurrogate.new, Except.ok.injEq,
    reduceIte] at hload
  subst hload
  unfold predict
  cases fhs <;> cases mdl <;> rfl

/-- Witness for C6 at the concrete trained instance `trained0`: the store it
dumps to and the instance loaded back give the same predictions. -/
theorem dump_load_roundtrip_predict_witness :
    predict extLib0 loaded0 features0 = predict extLib0 trained0 features0 :=
  dump_load_roundtrip_predict extLib0 trained0 ["L0"] store0 loaded0 features0
    rfl rfl rfl rfl

/-- C7: `dump` always writes the parameter payload, and writes the
label-header and model payloads exactly when the instance is trained;
`load` restores the parameter payload onto a fresh default instance, fails
on the extra payloads only when the restored trained flag is set and they
are missing, and reads them exactly when the flag is set. -/
theorem dump_load_payload_layout {M : Type} (s : XGBSurrogate M)
    (store : Store M) (p : ParamsPayload) (lh : List String)
    (hwf : s.trained_ = true → s.label_headers = some lh)
    (hp : store.params_file = some p) :
    (∃ st, dump s = .ok st ∧ st.params_file = some (paramsOf s)
      ∧ st.headers_file.isSome = s.trained_ ∧ st.model_file.isSome = s.trained_)
    ∧ (p.trained_ = false →
        load M store = .ok (applyParams (XGBSurrogate.new M) p))
    ∧ (p.trained_ = true →
        (store.headers_file = none ∨ store.model_file = none) →
        load M store = .error .fileNotFound)
    ∧ (∀ lh2 mm, p.trained_ = true → store.headers_file = some lh2 →
        store.model_file = some mm →
        load M store
          = .ok { applyParams (XGBSurrogate.new M) p with
                    label_headers := some lh2, model := mm }) := by
  obtain ⟨pf, hfile, mfile⟩ := store
  simp only at hp
  subst hp
  refine ⟨?_, ?_, ?_, ?_⟩
  · cases htr : s.trained_ with
    | true =>
      exact ⟨⟨some (paramsOf s), some lh, some s.model⟩,
        by simp [dump, htr, hwf htr], rfl, rfl, rfl⟩
    | false =>
      exact ⟨⟨some (paramsOf s), none, none⟩, by simp [dump, htr], rfl, rfl, rfl⟩
  · intro h
    simp [load, applyParams, h]
  · rintro htr (h | h) <;> subst h
    · cases mfile <;> simp [load, applyParams, htr]
    · cases hfile <;> simp [load, applyParams, htr]
  · intro lh2 mm htr h1 h2
    subst h1
    subst h2
    simp [load, applyParams, htr]

/-- Witness for C7 at the concrete trained instance `trained0` and its
dumped store `store0`. -/
theorem dump_load_payload_layout_witness :
    (∃ st, dump trained0 = .ok st ∧ st.params_file = some (paramsOf trained0)
      ∧ st.headers_file.isSome = trained0.trained_
      ∧ st.model_file.isSome = trained0.trained_)
    ∧ ((paramsOf trained0).trained_ = false →
        load Unit store0 = .ok (applyParams (XGBSurrogate.new Unit) (paramsOf trained0)))
    ∧ ((paramsOf trained0).trained_ = true →
        (store0.headers_file = none ∨ store0.model_file = none) →
        load Unit store0 = .error .fileNotFound)
    ∧ (∀ lh2 mm, (paramsOf trained0).trained_ = true →
        store0.headers_file = some lh2 → store0.model_file = some mm →
        load Unit store0
          = .ok { applyParams (XGBSurrogate.new Unit) (paramsOf trained0) with
                    label_headers := some lh2, model := mm }) :=
  dump_load_payload_layout trained0 store0 (paramsOf trained0) ["L0"]
    (fun _ => rfl) rfl

end XGB
